import Mathlib

/-!
A shallow embedding of the UDP socket engine implemented in
`net/socket/udp_socket_posix.cc`, together with theorems about its
behaviour.  OS interactions (socket creation, `bind`, `connect`, `read`,
`recvmsg`, `setsockopt`, the random-number source) are modelled as oracle
parameters: the embedded functions receive the results the OS would
return and reproduce the control flow of the C++ code on top of them.
Fatal `CHECK` failures are modelled as `none` / `Option`-style failure.
-/

/-- Net error codes used by the engine.  Numeric values follow the
Chromium net error taxonomy (`net/base/net_error_list.h`, which is not
part of the excerpted sources); only their distinctness and sign matter
for the theorems below. -/
def OK : Int := 0

/-- Internal pseudo-error denoting a suspended operation. -/
def ERR_IO_PENDING : Int := -1

/-- Invalid argument (e.g. a TTL outside 0..255). -/
def ERR_INVALID_ARGUMENT : Int := -4

/-- Feature not implemented on this platform. -/
def ERR_NOT_IMPLEMENTED : Int := -11

/-- Resource exhaustion: the global socket admission gate is empty. -/
def ERR_INSUFFICIENT_RESOURCES : Int := -12

/-- Operation requires a connected (or bound) socket. -/
def ERR_SOCKET_NOT_CONNECTED : Int := -15

/-- Operation requires a not-yet-connected socket. -/
def ERR_SOCKET_IS_CONNECTED : Int := -23

/-- Malformed or unsupported socket address. -/
def ERR_ADDRESS_INVALID : Int := -108

/-- Datagram was truncated (message too big for the buffer). -/
def ERR_MSG_TOO_BIG : Int := -142

/-- Address already in use (bind failure that triggers a retry). -/
def ERR_ADDRESS_IN_USE : Int := -147

/-- Number of random-bind retries (`kBindRetries` in the source). -/
def kBindRetries : Nat := 10

/-- Lowest port tried by the random bind (`kPortStart`). -/
def kPortStart : Nat := 1024

/-- Highest port tried by the random bind (`kPortEnd`). -/
def kPortEnd : Nat := 65535

/-- High-water mark of unreported bytes in the activity monitor
(`kActivityMonitorBytesThreshold`). -/
def kActivityMonitorBytesThreshold : Nat := 65535

/-- Low-water mark of samples for the throughput estimate
(`kActivityMonitorMinimumSamplesForThroughputEstimate`). -/
def kActivityMonitorMinimumSamplesForThroughputEstimate : Nat := 2

/-- Period of the coalescing flush timer, in milliseconds
(`kActivityMonitorMsThreshold` = `base::Milliseconds(100)`). -/
def kActivityMonitorMsThreshold : Nat := 100

/-- Address family constant `AF_INET` (value as on Linux). -/
def AF_INET : Nat := 2

/-- Address family constant `AF_INET6` (value as on Linux). -/
def AF_INET6 : Nat := 10

/-- Descriptor fingerprint, `GetSocketFDHash` in the source:
`fd ^ 1595649551`. -/
def GetSocketFDHash (fd : Nat) : Nat := fd ^^^ 1595649551

/-- State of `UDPSocketPosix::ReceivedActivityMonitor`: accumulated
unreported bytes, the sample counter, and whether the coalescing timer
is running. -/
structure ReceivedActivityMonitor where
  bytes_ : Nat
  increments_ : Nat
  timer_running : Bool
deriving DecidableEq

/-- Observable outcome of one `Increment` call: the successor state, the
byte count passed to `activity_monitor::IncrementBytesReceived` (0 when
nothing was reported), whether `timer_.Reset()` was called, and the
period `timer_.Start` was called with (`none` when it was not called). -/
structure IncrementOutcome where
  state : ReceivedActivityMonitor
  reported : Nat
  timerReset : Bool
  timerStarted : Option Nat
deriving DecidableEq

/-- `ReceivedActivityMonitor::Update`: report the accumulated bytes to
the process-wide throughput counter and reset them, doing nothing when
no bytes have accumulated.  The second component is the reported
amount. -/
def ReceivedActivityMonitor.Update (m : ReceivedActivityMonitor) :
    ReceivedActivityMonitor × Nat :=
  if m.bytes_ = 0 then (m, 0) else ({ m with bytes_ := 0 }, m.bytes_)

/-- `ReceivedActivityMonitor::Increment`: no-op for zero bytes;
otherwise accumulate bytes and a sample, flush when the sample count is
below the low-water mark or the byte count exceeds the high-water mark,
restart a running timer after a flush, and start the timer whenever it
was not running. -/
def ReceivedActivityMonitor.Increment (m : ReceivedActivityMonitor) (bytes : Nat) :
    IncrementOutcome :=
  if bytes = 0 then { state := m, reported := 0, timerReset := false, timerStarted := none }
  else
    let timer_running := m.timer_running
    let m1 : ReceivedActivityMonitor :=
      { m with bytes_ := m.bytes_ + bytes, increments_ := m.increments_ + 1 }
    if m1.increments_ < kActivityMonitorMinimumSamplesForThroughputEstimate
        ∨ m1.bytes_ > kActivityMonitorBytesThreshold then
      let u := m1.Update
      let m2 := if timer_running then u.1 else { u.1 with timer_running := true }
      { state := m2, reported := u.2, timerReset := timer_running,
        timerStarted := if timer_running then none else some kActivityMonitorMsThreshold }
    else
      let m2 := if timer_running then m1 else { m1 with timer_running := true }
      { state := m2, reported := 0, timerReset := false,
        timerStarted := if timer_running then none else some kActivityMonitorMsThreshold }

/-- `ReceivedActivityMonitor::OnTimerFired`: reset the sample counter;
stop the timer when no bytes have accumulated, otherwise flush.  The
second component is the reported amount. -/
def ReceivedActivityMonitor.OnTimerFired (m : ReceivedActivityMonitor) :
    ReceivedActivityMonitor × Nat :=
  let m1 : ReceivedActivityMonitor := { m with increments_ := 0 }
  if m1.bytes_ = 0 then ({ m1 with timer_running := false }, 0)
  else m1.Update

/-- `ReceivedActivityMonitor::OnClose`: stop the timer and perform a
final flush. -/
def ReceivedActivityMonitor.OnClose (m : ReceivedActivityMonitor) :
    ReceivedActivityMonitor × Nat :=
  ReceivedActivityMonitor.Update { m with timer_running := false }

/-- Monitor state extended with a ghost counter of samples accumulated
since the last flush, following the words of the specification (which
phrases the flush condition in terms of samples "since the last
flush"). -/
structure MonitorWithFlushClock where
  mon : ReceivedActivityMonitor
  samples_since_flush : Nat
deriving DecidableEq

/-- `Increment` on the extended state: the ghost counter counts each
non-zero sample and returns to zero exactly when a flush is reported. -/
def MonitorWithFlushClock.Increment (g : MonitorWithFlushClock) (bytes : Nat) :
    MonitorWithFlushClock :=
  let o := g.mon.Increment bytes
  { mon := o.state,
    samples_since_flush :=
      if bytes = 0 then g.samples_since_flush
      else if o.reported ≠ 0 then 0 else g.samples_since_flush + 1 }

/-- The flush condition as the specification states it: a non-zero
increment flushes exactly when fewer than 2 samples have accumulated
since the last flush (the current sample included) or the accumulated
bytes exceed the high-water mark. -/
def C3FlushIffSpec (g : MonitorWithFlushClock) (bytes : Nat) : Prop :=
  bytes ≠ 0 →
    ((g.mon.Increment bytes).reported ≠ 0 ↔
      (g.samples_since_flush + 1 < kActivityMonitorMinimumSamplesForThroughputEstimate
        ∨ g.mon.bytes_ + bytes > kActivityMonitorBytesThreshold))

/-- Events driving the activity monitor between quiescent points. -/
inductive MonitorEvent
  | inc : Nat → MonitorEvent
  | timerFired : MonitorEvent
  | close : MonitorEvent
deriving DecidableEq

/-- One step of the activity monitor.  The timer can only fire while it
is running. -/
def monitorStep (m : ReceivedActivityMonitor) : MonitorEvent → ReceivedActivityMonitor
  | MonitorEvent.inc b => (m.Increment b).state
  | MonitorEvent.timerFired => if m.timer_running then (m.OnTimerFired).1 else m
  | MonitorEvent.close => (m.OnClose).1

/-- The monitor state of a freshly constructed socket. -/
def initialMonitor : ReceivedActivityMonitor :=
  { bytes_ := 0, increments_ := 0, timer_running := false }

/-- Run the activity monitor from its initial state over a list of
events. -/
def monitorRun (events : List MonitorEvent) : ReceivedActivityMonitor :=
  events.foldl monitorStep initialMonitor

/-- The invariant claimed for the activity monitor: the coalescing timer
is running exactly when unreported bytes are non-zero. -/
def timerIffBytesInvariant (m : ReceivedActivityMonitor) : Prop :=
  m.timer_running = true ↔ m.bytes_ ≠ 0

/-- C3: `Increment(bytes)` is a no-op for zero bytes; a non-zero
increment flushes exactly when the sample counter (after this sample) is
below 2 or the accumulated bytes exceed 65535; a flush reports the whole
accumulation and resets it, restarts an already-running timer, and a
non-running timer is started with the 100 ms period; on timer fire the
sample counter is reset and the timer stops exactly when no bytes have
accumulated.  Amended from the claim: the sample counter is reset on
timer fire, not on flush, so the flush condition counts samples since
the last timer fire rather than since the last flush. -/
theorem C3_increment_flush_behavior (m : ReceivedActivityMonitor) (bytes : Nat)
    (hb : bytes ≠ 0) :
    ((m.Increment bytes).reported ≠ 0 ↔
        (m.increments_ + 1 < kActivityMonitorMinimumSamplesForThroughputEstimate
          ∨ m.bytes_ + bytes > kActivityMonitorBytesThreshold))
  ∧ ((m.Increment bytes).reported ≠ 0 →
        (m.Increment bytes).reported = m.bytes_ + bytes
        ∧ (m.Increment bytes).state.bytes_ = 0
        ∧ (m.Increment bytes).timerReset = m.timer_running
        ∧ (m.timer_running = false →
            (m.Increment bytes).timerStarted = some kActivityMonitorMsThreshold))
  ∧ m.Increment 0 = { state := m, reported := 0, timerReset := false, timerStarted := none }
  ∧ (m.OnTimerFired).1.increments_ = 0
  ∧ (m.timer_running = true →
        ((m.OnTimerFired).1.timer_running = false ↔ m.bytes_ = 0))
  ∧ (m.bytes_ ≠ 0 → (m.OnTimerFired).2 = m.bytes_ ∧ (m.OnTimerFired).1.bytes_ = 0) := by
  unfold ReceivedActivityMonitor.Increment ReceivedActivityMonitor.OnTimerFired
    ReceivedActivityMonitor.Update
  simp only [hb, if_false, ite_false]
  refine ⟨?_, ?_, ?_, ?_, ?_, ?_⟩ <;>
    split_ifs <;> simp_all

/-- Witness for `C3_increment_flush_behavior` at a concrete monitor
state and byte count. -/
theorem C3_increment_flush_behavior_witness :
    (ReceivedActivityMonitor.Increment ⟨0, 0, false⟩ 1).reported ≠ 0 ↔
      (0 + 1 < kActivityMonitorMinimumSamplesForThroughputEstimate
        ∨ 0 + 1 > kActivityMonitorBytesThreshold) :=
  (C3_increment_flush_behavior ⟨0, 0, false⟩ 1 (by decide)).1

/-- C3 counterexample: on the trace Increment(1); Increment(1), the
second increment has accumulated exactly one sample since the last flush
(the first increment flushed), yet the engine does not flush, because
its sample counter (reset only on timer fire) already reads 2. -/
theorem C3_claim_counterexample :
    ¬ C3FlushIffSpec (MonitorWithFlushClock.Increment ⟨⟨0, 0, false⟩, 0⟩ 1) 1 := by
  unfold C3FlushIffSpec
  decide

/-- Helper: every monitor step preserves the one-sided invariant that
non-zero unreported bytes imply a running timer. -/
theorem monitorStep_preserves_timer (m : ReceivedActivityMonitor) (e : MonitorEvent)
    (h : m.bytes_ ≠ 0 → m.timer_running = true) :
    (monitorStep m e).bytes_ ≠ 0 → (monitorStep m e).timer_running = true := by
  cases e <;>
    simp only [monitorStep, ReceivedActivityMonitor.Increment,
      ReceivedActivityMonitor.OnTimerFired, ReceivedActivityMonitor.OnClose,
      ReceivedActivityMonitor.Update] <;>
    split_ifs <;> simp_all

/-- Helper: folding monitor steps over any event list preserves the
one-sided invariant. -/
theorem monitorFoldl_preserves (events : List MonitorEvent) :
    ∀ m : ReceivedActivityMonitor, (m.bytes_ ≠ 0 → m.timer_running = true) →
      ((events.foldl monitorStep m).bytes_ ≠ 0 →
        (events.foldl monitorStep m).timer_running = true) := by
  induction events with
  | nil => exact fun m h => h
  | cons e es ih => exact fun m h => ih _ (monitorStep_preserves_timer m e h)

/-- C4 (amended): at every quiescent point reachable from the initial
monitor state, non-zero unreported bytes imply that the coalescing timer
is running.  The converse direction of the claimed "if and only if"
fails: right after a flush the bytes are zero while the timer keeps
running (see the counterexample). -/
theorem C4_timer_runs_when_bytes_unreported (events : List MonitorEvent)
    (h : (monitorRun events).bytes_ ≠ 0) :
    (monitorRun events).timer_running = true :=
  monitorFoldl_preserves events initialMonitor (by decide) h

/-- Witness for `C4_timer_runs_when_bytes_unreported` on a trace of two
one-byte increments, after which one byte is unreported. -/
theorem C4_timer_runs_when_bytes_unreported_witness :
    (monitorRun [MonitorEvent.inc 1, MonitorEvent.inc 1]).timer_running = true :=
  C4_timer_runs_when_bytes_unreported [MonitorEvent.inc 1, MonitorEvent.inc 1] (by decide)

/-- C4 counterexample: after a single Increment(1) from the initial
state the increment flushes (bytes return to zero) and starts the timer,
so the timer runs while the unreported byte count is zero, refuting the
claimed equivalence. -/
theorem C4_claim_counterexample :
    ¬ timerIffBytesInvariant (monitorRun [MonitorEvent.inc 1]) := by
  unfold timerIffBytesInvariant
  decide

/-- An IP address, modelled as its list of bytes (4 for IPv4, 16 for
IPv6), as in `net::IPAddress`. -/
abbrev IPAddress := List Nat

/-- Size in bytes of an IPv4 address (`IPAddress::kIPv4AddressSize`). -/
def kIPv4AddressSize : Nat := 4

/-- Size in bytes of an IPv6 address (`IPAddress::kIPv6AddressSize`). -/
def kIPv6AddressSize : Nat := 16

/-- `IPAddress::AllZeros`: the all-zero address of the given size. -/
def IPAddress.AllZeros (size : Nat) : IPAddress := List.replicate size 0

/-- An address/port pair, as in `net::IPEndPoint`. -/
structure IPEndPoint where
  address : IPAddress
  port : Nat
deriving DecidableEq

/-- `IPEndPoint::GetSockAddrFamily`: `AF_INET` for a 4-byte address,
`AF_INET6` otherwise. -/
def IPEndPoint.GetSockAddrFamily (e : IPEndPoint) : Nat :=
  if e.address.length = kIPv4AddressSize then AF_INET else AF_INET6

/-- `DatagramSocket::BindType`. -/
inductive BindType
  | DEFAULT_BIND
  | RANDOM_BIND
deriving DecidableEq

/-- The state of a `UDPSocketPosix` instance that the modelled
operations read or write.  `socket_ = none` is the closed state
(`kInvalidSocket`); buffers, callbacks and watcher registrations are
tracked as presence flags, and the socket tag as a number whose default
(`SocketTag()`) is 0. -/
structure UDPSocketPosix where
  socket_ : Option Nat
  socket_hash_ : Nat
  addr_family_ : Nat
  is_connected_ : Bool
  tag_ : Nat
  dont_close_ : Bool
  has_owned_socket_count : Bool
  read_buf_ : Bool
  read_buf_len_ : Int
  read_callback_ : Bool
  recv_from_address_ : Bool
  write_buf_ : Bool
  write_buf_len_ : Int
  write_callback_ : Bool
  send_to_address_ : Bool
  read_watching : Bool
  write_watching : Bool
  remote_address_ : Option IPEndPoint
  local_address_ : Option IPEndPoint
  multicast_time_to_live_ : Int
  bind_type_ : BindType
  experimental_recv_optimization_enabled_ : Bool
  received_activity_monitor_ : ReceivedActivityMonitor
deriving DecidableEq

/-- Observable side effects of one `Close` call: how many stored
completion callbacks were invoked, whether the OS descriptor was closed,
and how many bytes the activity-monitor flush reported. -/
structure CloseEffects where
  callbacksInvoked : Nat
  descriptorClosed : Bool
  monitorReported : Nat
deriving DecidableEq

/-- `UDPSocketPosix::Close`.  `closeOk` is the oracle for the OS close
call succeeding.  The result is `none` when a fatal `CHECK` fires (a
do-not-close socket, a fingerprint mismatch, or a failing OS close);
otherwise it is the successor state together with the observable
effects.  The pending-operation state is cleared without running any
callback, both watchers are unregistered, the admission token is
released and the activity monitor is flushed. -/
def UDPSocketPosix.Close (closeOk : Bool) (s : UDPSocketPosix) :
    Option (UDPSocketPosix × CloseEffects) :=
  if s.dont_close_ then none
  else
    let s0 : UDPSocketPosix := { s with has_owned_socket_count := false }
    match s0.socket_ with
    | none => some (s0, { callbacksInvoked := 0, descriptorClosed := false, monitorReported := 0 })
    | some fd =>
      let s1 : UDPSocketPosix :=
        { s0 with read_buf_ := false, read_buf_len_ := 0, read_callback_ := false,
                  recv_from_address_ := false, write_buf_ := false, write_buf_len_ := 0,
                  write_callback_ := false, send_to_address_ := false,
                  read_watching := false, write_watching := false }
      if s1.socket_hash_ ≠ GetSocketFDHash fd then none
      else if closeOk = false then none
      else
        let u := s1.received_activity_monitor_.OnClose
        some ({ s1 with socket_ := none, addr_family_ := 0, is_connected_ := false,
                        tag_ := 0, received_activity_monitor_ := u.1 },
              { callbacksInvoked := 0, descriptorClosed := true, monitorReported := u.2 })

/-- Oracle results the OS supplies to one `Open` call. -/
structure OpenOS where
  gateAvailable : Bool
  createdFd : Option Nat
  createErr : Int
  setNonBlockingOk : Bool
  nonBlockingErr : Int
deriving DecidableEq

/-- `UDPSocketPosix::Open`: fail with `ERR_INSUFFICIENT_RESOURCES` when
the admission gate is empty, before any descriptor is created; otherwise
create the descriptor, compute its fingerprint, set non-blocking mode
(closing the partially opened socket and returning the mapped error on
failure), apply a pre-set tag, and keep the admission token.  `family`
is the already-converted address family.  `none` models a fatal
`CHECK`. -/
def UDPSocketPosix.Open (s : UDPSocketPosix) (os : OpenOS) (family : Nat) :
    Option (Int × UDPSocketPosix) :=
  if os.gateAvailable = false then some (ERR_INSUFFICIENT_RESOURCES, s)
  else
    let s1 : UDPSocketPosix := { s with addr_family_ := family }
    match os.createdFd with
    | none => some (os.createErr, s1)
    | some fd =>
      let s2 : UDPSocketPosix := { s1 with socket_ := some fd, socket_hash_ := GetSocketFDHash fd }
      if os.setNonBlockingOk = false then
        match UDPSocketPosix.Close true s2 with
        | none => none
        | some (s3, _) => some (os.nonBlockingErr, s3)
      else
        some (OK, { s2 with has_owned_socket_count := true })

/-- `UDPSocketPosix::SetMulticastTimeToLive`, returning the result code
together with the stored TTL: connected sockets are rejected first, then
values outside 0..255, and accepted values are stored. -/
def SetMulticastTimeToLive (is_connected : Bool) (multicast_time_to_live_ : Int)
    (time_to_live : Int) : Int × Int :=
  if is_connected then (ERR_SOCKET_IS_CONNECTED, multicast_time_to_live_)
  else if time_to_live < 0 ∨ time_to_live > 255 then
    (ERR_INVALID_ARGUMENT, multicast_time_to_live_)
  else (OK, time_to_live)

/-- The `DSCP_NO_CHANGE` sentinel of `net::DiffServCodePoint` (its
definition is outside the excerpted sources; only its being a sentinel
matters). -/
def DSCP_NO_CHANGE : Int := -1

/-- Observable outcome of `SetDiffServCodePoint`: the values written to
the IPv4 (`IP_TOS`) and IPv6 (`IPV6_TCLASS`) option namespaces (`none`
when the call was not issued) and the returned result code. -/
structure DscpOutcome where
  ipv4Written : Option Int
  ipv6Written : Option Int
  result : Int
deriving DecidableEq

/-- `UDPSocketPosix::SetDiffServCodePoint`.  `ipTosRet` and
`ipv6TclassRet` are the oracles for the two `setsockopt` calls (value
written ↦ raw return, negative on failure) and `mappedErr` is the
mapped `errno`.  A no-change code point returns `OK` without touching
any option; otherwise the code point shifted left by 2 bits is written
to `IP_TOS` in all cases and additionally to `IPV6_TCLASS` for
IPv6-family sockets, where the `IPV6_TCLASS` result overwrites (and thus
ignores) the `IP_TOS` result. -/
def SetDiffServCodePoint (addr_family_ : Nat) (ipTosRet ipv6TclassRet : Int → Int)
    (mappedErr : Int) (dscp : Int) : DscpOutcome :=
  if dscp = DSCP_NO_CHANGE then { ipv4Written := none, ipv6Written := none, result := OK }
  else
    let dscp_and_ecn := dscp * 4
    let rv := ipTosRet dscp_and_ecn
    let step6 : Option Int × Int :=
      if addr_family_ = AF_INET6 then (some dscp_and_ecn, ipv6TclassRet dscp_and_ecn)
      else (none, rv)
    { ipv4Written := some dscp_and_ecn, ipv6Written := step6.1,
      result := if step6.2 < 0 then mappedErr else OK }

/-- Oracle results for one membership `setsockopt` call. -/
structure GroupOS where
  setsockoptRet : Int
  mappedErr : Int
deriving DecidableEq

/-- `UDPSocketPosix::JoinGroup`: requires a connected (or bound) socket;
the group address must have the IPv4 or IPv6 size matching the socket
family; then `IP_ADD_MEMBERSHIP` / `IPV6_JOIN_GROUP` is issued and its
failure mapped. -/
def UDPSocketPosix.JoinGroup (s : UDPSocketPosix) (os : GroupOS)
    (group_address : IPAddress) : Int :=
  if s.is_connected_ = false then ERR_SOCKET_NOT_CONNECTED
  else if group_address.length = kIPv4AddressSize then
    if s.addr_family_ ≠ AF_INET then ERR_ADDRESS_INVALID
    else if os.setsockoptRet < 0 then os.mappedErr else OK
  else if group_address.length = kIPv6AddressSize then
    if s.addr_family_ ≠ AF_INET6 then ERR_ADDRESS_INVALID
    else if os.setsockoptRet < 0 then os.mappedErr else OK
  else ERR_ADDRESS_INVALID

/-- `UDPSocketPosix::LeaveGroup`: same gate conditions as `JoinGroup`,
issuing `IP_DROP_MEMBERSHIP` / `IPV6_LEAVE_GROUP`. -/
def UDPSocketPosix.LeaveGroup (s : UDPSocketPosix) (os : GroupOS)
    (group_address : IPAddress) : Int :=
  if s.is_connected_ = false then ERR_SOCKET_NOT_CONNECTED
  else if group_address.length = kIPv4AddressSize then
    if s.addr_family_ ≠ AF_INET then ERR_ADDRESS_INVALID
    else if os.setsockoptRet < 0 then os.mappedErr else OK
  else if group_address.length = kIPv6AddressSize then
    if s.addr_family_ ≠ AF_INET6 then ERR_ADDRESS_INVALID
    else if os.setsockoptRet < 0 then os.mappedErr else OK
  else ERR_ADDRESS_INVALID

/-- `UDPSocketPosix::RandomBind`, unfolded over its loop counter.
`doBind` is the oracle for `DoBind` (endpoint ↦ result code) and `rand`
the stream of values `base::RandInt(kPortStart, kPortEnd)` produces;
`i` is the index of the next random draw and `fuel` the remaining
retries.  The result is the returned code paired with the list of ports
attempted, in order. -/
def RandomBindGo (doBind : IPEndPoint → Int) (rand : Nat → Nat) (address : IPAddress) :
    Nat → Nat → Int × List Nat
  | _, 0 => (doBind { address := address, port := 0 }, [0])
  | i, fuel + 1 =>
    if doBind { address := address, port := rand i } = ERR_ADDRESS_IN_USE then
      ((RandomBindGo doBind rand address (i + 1) fuel).1,
        rand i :: (RandomBindGo doBind rand address (i + 1) fuel).2)
    else (doBind { address := address, port := rand i }, [rand i])

/-- `UDPSocketPosix::RandomBind`: up to `kBindRetries` random-port bind
attempts, then a final fallback to port 0. -/
def RandomBind (doBind : IPEndPoint → Int) (rand : Nat → Nat) (address : IPAddress) :
    Int × List Nat :=
  RandomBindGo doBind rand address 0 kBindRetries

/-- Oracle results the OS supplies to one `Connect` call. -/
structure ConnectOS where
  doBind : IPEndPoint → Int
  rand : Nat → Nat
  toSockAddrOk : Bool
  connectRet : Int
  connectErr : Int
  multicastRet : Int

/-- `UDPSocketPosix::InternalConnect`: under the random-bind policy,
first bind the all-zero address of the destination family size through
the retry algorithm, propagating its failure before any connect; then
convert the destination (failure is `ERR_ADDRESS_INVALID`), issue the OS
connect (failure maps to `connectErr`), and cache the remote endpoint on
success. -/
def UDPSocketPosix.InternalConnect (s : UDPSocketPosix) (os : ConnectOS)
    (address : IPEndPoint) : Int × UDPSocketPosix :=
  let addr_size := if address.GetSockAddrFamily = AF_INET
    then kIPv4AddressSize else kIPv6AddressSize
  let rv := if s.bind_type_ = BindType.RANDOM_BIND
    then (RandomBind os.doBind os.rand (IPAddress.AllZeros addr_size)).1
    else 0
  if rv < 0 then (rv, s)
  else if os.toSockAddrOk = false then (ERR_ADDRESS_INVALID, s)
  else if os.connectRet < 0 then (os.connectErr, s)
  else (os.connectRet, { s with remote_address_ := some address })

/-- `UDPSocketPosix::Connect` (via `ConnectInternal`): apply multicast
options first, returning their error with no further state change; then
run `InternalConnect`, set the connection flag from its result, and
reset the socket tag to the default on failure. -/
def UDPSocketPosix.Connect (s : UDPSocketPosix) (os : ConnectOS)
    (address : IPEndPoint) : Int × UDPSocketPosix :=
  let rv := os.multicastRet
  if rv ≠ OK then (rv, s)
  else
    let r := UDPSocketPosix.InternalConnect s os address
    if r.1 = OK then (r.1, { r.2 with is_connected_ := true })
    else (r.1, { r.2 with is_connected_ := false, tag_ := 0 })

/-- Oracle results the OS supplies to one receive call. -/
structure RecvOS where
  readRet : Int
  recvmsgRet : Int
  mappedErr : Int
  msgTrunc : Bool
  senderParseOk : Bool
  senderAddr : IPEndPoint
deriving DecidableEq

/-- `UDPSocketPosix::InternalRecvFromConnectedSocket`: a negative
`read` result is mapped; a byte count equal to the buffer length is
reported as `ERR_MSG_TOO_BIG`; any smaller count is returned as the
result, copying the cached remote endpoint to the out-parameter when one
is supplied.  The second component is the value stored in the
out-parameter. -/
def UDPSocketPosix.InternalRecvFromConnectedSocket (s : UDPSocketPosix) (os : RecvOS)
    (buf_len : Int) (wantAddress : Bool) : Int × Option IPEndPoint :=
  if os.readRet < 0 then (os.mappedErr, none)
  else if os.readRet = buf_len then (ERR_MSG_TOO_BIG, none)
  else (os.readRet, if wantAddress then s.remote_address_ else none)

/-- `UDPSocketPosix::InternalRecvFromNonConnectedSocket`: a negative
`recvmsg` result is mapped; a truncated message is reported as
`ERR_MSG_TOO_BIG`; an unparsable sender address as
`ERR_ADDRESS_INVALID`; otherwise the byte count is returned and the
sender address stored in the out-parameter when one is supplied. -/
def UDPSocketPosix.InternalRecvFromNonConnectedSocket (os : RecvOS)
    (buf_len : Int) (wantAddress : Bool) : Int × Option IPEndPoint :=
  if os.recvmsgRet < 0 then (os.mappedErr, none)
  else if os.msgTrunc then (ERR_MSG_TOO_BIG, none)
  else if wantAddress ∧ os.senderParseOk = false then (ERR_ADDRESS_INVALID, none)
  else (os.recvmsgRet, if wantAddress then some os.senderAddr else none)

/-- `UDPSocketPosix::InternalRecvFrom`: take the connected fast path
exactly when the optimization flag is enabled, the socket is connected,
and the remote endpoint is cached. -/
def UDPSocketPosix.InternalRecvFrom (s : UDPSocketPosix) (os : RecvOS)
    (buf_len : Int) (wantAddress : Bool) : Int × Option IPEndPoint :=
  if s.experimental_recv_optimization_enabled_ ∧ s.is_connected_
      ∧ s.remote_address_.isSome then
    UDPSocketPosix.InternalRecvFromConnectedSocket s os buf_len wantAddress
  else
    UDPSocketPosix.InternalRecvFromNonConnectedSocket os buf_len wantAddress

/-- A concrete closed socket state used by witnesses below. -/
def witnessSocket : UDPSocketPosix :=
  { socket_ := none, socket_hash_ := 0, addr_family_ := 0, is_connected_ := false,
    tag_ := 0, dont_close_ := false, has_owned_socket_count := false,
    read_buf_ := false, read_buf_len_ := 0, read_callback_ := false,
    recv_from_address_ := false, write_buf_ := false, write_buf_len_ := 0,
    write_callback_ := false, send_to_address_ := false,
    read_watching := false, write_watching := false,
    remote_address_ := none, local_address_ := none,
    multicast_time_to_live_ := 1, bind_type_ := BindType.DEFAULT_BIND,
    experimental_recv_optimization_enabled_ := false,
    received_activity_monitor_ := initialMonitor }

/-- C5 (amended): a no-change code point returns OK without touching any
option; otherwise the code point shifted left by 2 bits is written to
the IPv4 namespace in all cases, and for IPv6-family sockets also to the
IPv6 namespace, where the IPv6 result alone decides the outcome — the
IPv4 branch failure is the one tolerated in the dual-stack
configuration, while an IPv6 branch failure is surfaced as the mapped
error (for IPv4-family sockets the IPv4 branch failure is surfaced). -/
theorem C5_diffserv_marking (af : Nat) (ipTosRet ipv6TclassRet : Int → Int)
    (mappedErr dscp : Int) (hd : dscp ≠ DSCP_NO_CHANGE) :
    SetDiffServCodePoint af ipTosRet ipv6TclassRet mappedErr DSCP_NO_CHANGE =
      { ipv4Written := none, ipv6Written := none, result := OK }
  ∧ (SetDiffServCodePoint af ipTosRet ipv6TclassRet mappedErr dscp).ipv4Written =
      some (dscp * 4)
  ∧ (af = AF_INET6 →
      (SetDiffServCodePoint af ipTosRet ipv6TclassRet mappedErr dscp).ipv6Written =
        some (dscp * 4)
      ∧ (SetDiffServCodePoint af ipTosRet ipv6TclassRet mappedErr dscp).result =
          (if ipv6TclassRet (dscp * 4) < 0 then mappedErr else OK))
  ∧ (af ≠ AF_INET6 →
      (SetDiffServCodePoint af ipTosRet ipv6TclassRet mappedErr dscp).ipv6Written = none
      ∧ (SetDiffServCodePoint af ipTosRet ipv6TclassRet mappedErr dscp).result =
          (if ipTosRet (dscp * 4) < 0 then mappedErr else OK)) := by
  unfold SetDiffServCodePoint
  refine ⟨by simp, ?_, ?_, ?_⟩ <;> simp [hd] <;> intro h <;> simp [h]

/-- Witness for `C5_diffserv_marking`: an IPv6-family socket whose IPv4
branch fails and whose IPv6 branch succeeds reports success. -/
theorem C5_diffserv_marking_witness :
    (SetDiffServCodePoint AF_INET6 (fun _ => -1) (fun _ => 0) (-4) 8).ipv6Written =
      some (8 * 4)
    ∧ (SetDiffServCodePoint AF_INET6 (fun _ => -1) (fun _ => 0) (-4) 8).result =
        (if (fun _ : Int => (0 : Int)) (8 * 4) < 0 then (-4 : Int) else OK) :=
  (C5_diffserv_marking AF_INET6 (fun _ => -1) (fun _ => 0) (-4) 8 (by decide)).2.2.1 rfl

/-- C5 counterexample: on an IPv6-family socket whose IPv4 `setsockopt`
fails while the IPv6 one succeeds, the function returns OK — the IPv4
failure is tolerated and the IPv6 result decides the outcome, which is
the opposite of the claimed tolerance direction. -/
theorem C5_claim_counterexample :
    (SetDiffServCodePoint AF_INET6 (fun _ => -1) (fun _ => 0) (-4) 8).result = OK
    ∧ OK ≠ (-4 : Int) := by
  constructor
  · rfl
  · decide

/-- C6 (amended): while disconnected, TTL 256 and -1 are rejected with
`ERR_INVALID_ARGUMENT` while TTL 0 and 255 succeed and are stored; while
connected, every call — including the out-of-range ones — fails with the
SocketAlreadyConnected-class error `ERR_SOCKET_IS_CONNECTED`, because
the connected check precedes the range check. -/
theorem C6_set_multicast_ttl (stored : Int) :
    SetMulticastTimeToLive false stored 256 = (ERR_INVALID_ARGUMENT, stored)
  ∧ SetMulticastTimeToLive false stored (-1) = (ERR_INVALID_ARGUMENT, stored)
  ∧ SetMulticastTimeToLive false stored 0 = (OK, 0)
  ∧ SetMulticastTimeToLive false stored 255 = (OK, 255)
  ∧ (∀ t : Int, SetMulticastTimeToLive true stored t = (ERR_SOCKET_IS_CONNECTED, stored)) := by
  unfold SetMulticastTimeToLive
  norm_num

/-- C6 counterexample: on a connected socket, `SetMulticastTimeToLive
256` fails with `ERR_SOCKET_IS_CONNECTED`, not with the claimed
`ERR_INVALID_ARGUMENT`. -/
theorem C6_claim_counterexample :
    SetMulticastTimeToLive true 1 256 = (ERR_SOCKET_IS_CONNECTED, 1)
    ∧ ERR_SOCKET_IS_CONNECTED ≠ ERR_INVALID_ARGUMENT := by
  constructor
  · rfl
  · decide

/-- C10: `JoinGroup` and `LeaveGroup` report `ERR_SOCKET_NOT_CONNECTED`
on a socket that was never bound or connected; on a connected socket
they report `ERR_ADDRESS_INVALID` whenever the group address size is
neither the IPv4 nor the IPv6 size or does not match the socket family,
and otherwise return success or the mapped error of the membership
`setsockopt`. -/
theorem C10_join_leave_group (s : UDPSocketPosix) (os : GroupOS) (g : IPAddress) :
    (s.is_connected_ = false →
      s.JoinGroup os g = ERR_SOCKET_NOT_CONNECTED
      ∧ s.LeaveGroup os g = ERR_SOCKET_NOT_CONNECTED)
  ∧ (s.is_connected_ = true →
      ((g.length ≠ kIPv4AddressSize ∧ g.length ≠ kIPv6AddressSize) →
        s.JoinGroup os g = ERR_ADDRESS_INVALID ∧ s.LeaveGroup os g = ERR_ADDRESS_INVALID)
      ∧ (g.length = kIPv4AddressSize → s.addr_family_ ≠ AF_INET →
        s.JoinGroup os g = ERR_ADDRESS_INVALID ∧ s.LeaveGroup os g = ERR_ADDRESS_INVALID)
      ∧ (g.length = kIPv6AddressSize → s.addr_family_ ≠ AF_INET6 →
        s.JoinGroup os g = ERR_ADDRESS_INVALID ∧ s.LeaveGroup os g = ERR_ADDRESS_INVALID)
      ∧ (g.length = kIPv4AddressSize → s.addr_family_ = AF_INET →
        s.JoinGroup os g = (if os.setsockoptRet < 0 then os.mappedErr else OK)
        ∧ s.LeaveGroup os g = (if os.setsockoptRet < 0 then os.mappedErr else OK))
      ∧ (g.length = kIPv6AddressSize → s.addr_family_ = AF_INET6 →
        s.JoinGroup os g = (if os.setsockoptRet < 0 then os.mappedErr else OK)
        ∧ s.LeaveGroup os g = (if os.setsockoptRet < 0 then os.mappedErr else OK))) := by
  unfold UDPSocketPosix.JoinGroup UDPSocketPosix.LeaveGroup
  constructor
  · intro h1; simp [h1]
  · intro h1
    simp only [h1]
    refine ⟨?_, ?_, ?_, ?_, ?_⟩ <;> intros <;> split_ifs <;>
      simp_all [kIPv4AddressSize, kIPv6AddressSize]

/-- Witness for `C10_join_leave_group`: a connected IPv4-family socket
joining a 4-byte group with a succeeding `setsockopt` gets OK. -/
theorem C10_join_leave_group_witness :
    UDPSocketPosix.JoinGroup
        { witnessSocket with is_connected_ := true, addr_family_ := AF_INET }
        { setsockoptRet := 0, mappedErr := -4 } [224, 0, 0, 1] =
      (if (0 : Int) < 0 then (-4 : Int) else OK) :=
  (((C10_join_leave_group
      { witnessSocket with is_connected_ := true, addr_family_ := AF_INET }
      { setsockoptRet := 0, mappedErr := -4 } [224, 0, 0, 1]).2 rfl).2.2.2.1 rfl rfl).1

/-- C2: on the connected fast path (optimization flag enabled, socket
connected, remote endpoint cached), a plain-read byte count exactly
equal to the requested buffer length is reported as `ERR_MSG_TOO_BIG`,
and every strictly smaller non-negative count is returned as the result,
with the cached remote endpoint copied to the out-parameter when one is
supplied. -/
theorem C2_connected_fast_path_truncation (s : UDPSocketPosix) (os : RecvOS)
    (buf_len : Int) (r : IPEndPoint) (wantAddress : Bool)
    (hopt : s.experimental_recv_optimization_enabled_ = true)
    (hconn : s.is_connected_ = true)
    (hrem : s.remote_address_ = some r)
    (hnn : 0 ≤ os.readRet) :
    (os.readRet = buf_len →
      s.InternalRecvFrom os buf_len wantAddress = (ERR_MSG_TOO_BIG, none))
  ∧ (os.readRet < buf_len →
      s.InternalRecvFrom os buf_len wantAddress =
        (os.readRet, if wantAddress then some r else none)) := by
  have hneg : ¬ os.readRet < 0 := not_lt.mpr hnn
  unfold UDPSocketPosix.InternalRecvFrom UDPSocketPosix.InternalRecvFromConnectedSocket
  simp only [hopt, hconn, hrem, Option.isSome_some, and_self, if_true, hneg, if_false]
  constructor
  · intro h; simp [h]
  · intro h; simp [hneg, Int.ne_of_lt h]

/-- Witness for `C2_connected_fast_path_truncation`: a 5-byte read into
a 5-byte buffer on the fast path reports `ERR_MSG_TOO_BIG`. -/
theorem C2_connected_fast_path_truncation_witness :
    UDPSocketPosix.InternalRecvFrom
        { witnessSocket with experimental_recv_optimization_enabled_ := true,
                             is_connected_ := true,
                             remote_address_ := some { address := [127, 0, 0, 1], port := 443 } }
        { readRet := 5, recvmsgRet := 0, mappedErr := -4, msgTrunc := false,
          senderParseOk := true, senderAddr := { address := [127, 0, 0, 1], port := 443 } }
        5 true = (ERR_MSG_TOO_BIG, none) :=
  (C2_connected_fast_path_truncation _ _ 5 { address := [127, 0, 0, 1], port := 443 } true
    rfl rfl rfl (by decide)).1 rfl

/-- Helper: on a failing `InternalConnect` the socket state is left
unchanged, and on success only the remote endpoint is cached.  The two
sanity hypotheses record that the OS connect primitive returns 0 or a
negative value and that a mapped connect failure is negative. -/
theorem internalConnect_cases (s : UDPSocketPosix) (os : ConnectOS) (address : IPEndPoint)
    (hcr : os.connectRet ≤ 0) (hce : os.connectErr < 0) :
    ((s.InternalConnect os address).1 = OK →
      (s.InternalConnect os address).2 = { s with remote_address_ := some address })
  ∧ ((s.InternalConnect os address).1 ≠ OK → (s.InternalConnect os address).2 = s) := by
  simp only [UDPSocketPosix.InternalConnect]
  split_ifs <;> constructor <;> intro h <;>
    first
      | rfl
      | (simp only [OK, ERR_ADDRESS_INVALID] at h ⊢; omega)

/-- C9: `Connect` returns a multicast-option-stage error with the
connection flag and tag left unchanged; when a later stage fails (random
bind, destination conversion, or OS connect) the socket ends up
not-connected with its tag reset to the default and no remote endpoint
cached; on success the tag is unchanged, the connection flag is set and
the remote endpoint is cached. -/
theorem C9_connect_state_and_tag (s : UDPSocketPosix) (os : ConnectOS)
    (address : IPEndPoint)
    (hnc : s.is_connected_ = false) (hnr : s.remote_address_ = none)
    (hcr : os.connectRet ≤ 0) (hce : os.connectErr < 0) :
    (os.multicastRet ≠ OK → s.Connect os address = (os.multicastRet, s))
  ∧ (os.multicastRet = OK → (s.InternalConnect os address).1 ≠ OK →
      (s.Connect os address).1 = (s.InternalConnect os address).1
      ∧ (s.Connect os address).2.is_connected_ = false
      ∧ (s.Connect os address).2.tag_ = 0
      ∧ (s.Connect os address).2.remote_address_ = none)
  ∧ (os.multicastRet = OK → (s.InternalConnect os address).1 = OK →
      (s.Connect os address).1 = OK
      ∧ (s.Connect os address).2.is_connected_ = true
      ∧ (s.Connect os address).2.tag_ = s.tag_
      ∧ (s.Connect os address).2.remote_address_ = some address) := by
  refine ⟨?_, ?_, ?_⟩
  · intro h
    simp [UDPSocketPosix.Connect, h]
  · intro hm hf
    have hic := (internalConnect_cases s os address hcr hce).2 hf
    simp only [UDPSocketPosix.Connect, hm, ne_eq, not_true_eq_false, if_false, if_neg hf]
    rw [hic]
    simp [hnr]
  · intro hm hs
    have hic := (internalConnect_cases s os address hcr hce).1 hs
    simp only [UDPSocketPosix.Connect, hm, ne_eq, not_true_eq_false, if_false, if_pos hs]
    rw [hic]
    simp [hs]

/-- Witness for `C9_connect_state_and_tag`: a default-bind socket whose
multicast stage and OS connect succeed ends up connected, with the tag
unchanged and the remote endpoint cached. -/
theorem C9_connect_state_and_tag_witness :
    (UDPSocketPosix.Connect witnessSocket
        { doBind := fun _ => 0, rand := fun _ => 2000, toSockAddrOk := true,
          connectRet := 0, connectErr := -4, multicastRet := 0 }
        { address := [127, 0, 0, 1], port := 443 }).1 = OK
    ∧ (UDPSocketPosix.Connect witnessSocket
        { doBind := fun _ => 0, rand := fun _ => 2000, toSockAddrOk := true,
          connectRet := 0, connectErr := -4, multicastRet := 0 }
        { address := [127, 0, 0, 1], port := 443 }).2.is_connected_ = true
    ∧ (UDPSocketPosix.Connect witnessSocket
        { doBind := fun _ => 0, rand := fun _ => 2000, toSockAddrOk := true,
          connectRet := 0, connectErr := -4, multicastRet := 0 }
        { address := [127, 0, 0, 1], port := 443 }).2.tag_ = witnessSocket.tag_
    ∧ (UDPSocketPosix.Connect witnessSocket
        { doBind := fun _ => 0, rand := fun _ => 2000, toSockAddrOk := true,
          connectRet := 0, connectErr := -4, multicastRet := 0 }
        { address := [127, 0, 0, 1], port := 443 }).2.remote_address_ =
        some { address := [127, 0, 0, 1], port := 443 } :=
  (C9_connect_state_and_tag witnessSocket
    { doBind := fun _ => 0, rand := fun _ => 2000, toSockAddrOk := true,
      connectRet := 0, connectErr := -4, multicastRet := 0 }
    { address := [127, 0, 0, 1], port := 443 }
    rfl rfl (by norm_num) (by norm_num)).2.2 rfl rfl

/-- Helper: when every random attempt reports address-in-use, the retry
loop makes exactly `fuel` random attempts and falls back to port 0. -/
theorem randomBindGo_all_in_use (doBind : IPEndPoint → Int) (rand : Nat → Nat)
    (a : IPAddress) :
    ∀ fuel i,
      (∀ k, k < fuel → doBind { address := a, port := rand (i + k) } = ERR_ADDRESS_IN_USE) →
      RandomBindGo doBind rand a i fuel =
        (doBind { address := a, port := 0 },
          ((List.range fuel).map (fun k => rand (i + k))) ++ [0]) := by
  intro fuel
  induction fuel with
  | zero => intro i _; simp [RandomBindGo]
  | succ f ih =>
    intro i h
    have h0 : doBind { address := a, port := rand i } = ERR_ADDRESS_IN_USE := by
      simpa using h 0 (Nat.succ_pos f)
    have hrec := ih (i + 1) (fun k hk => by
      have h2 := h (k + 1) (by omega)
      have h3 : i + (k + 1) = i + 1 + k := by omega
      rwa [h3] at h2)
    have hfun : ((fun k => rand (i + k)) ∘ Nat.succ) = fun k : Nat => rand (i + 1 + k) := by
      funext k
      show rand (i + (k + 1)) = rand (i + 1 + k)
      congr 1
      omega
    rw [List.range_succ_eq_map, List.map_cons, List.map_map, hfun]
    simp [RandomBindGo, h0, hrec]

/-- Helper: on the first attempt whose result is not address-in-use, the
retry loop terminates immediately with that result, having attempted
exactly the ports drawn so far. -/
theorem randomBindGo_first_free (doBind : IPEndPoint → Int) (rand : Nat → Nat)
    (a : IPAddress) :
    ∀ j fuel i, j < fuel →
      (∀ k, k < j → doBind { address := a, port := rand (i + k) } = ERR_ADDRESS_IN_USE) →
      doBind { address := a, port := rand (i + j) } ≠ ERR_ADDRESS_IN_USE →
      RandomBindGo doBind rand a i fuel =
        (doBind { address := a, port := rand (i + j) },
          (List.range (j + 1)).map (fun k => rand (i + k))) := by
  intro j
  induction j with
  | zero =>
    intro fuel i hlt _ hfree
    cases fuel with
    | zero => omega
    | succ f =>
      simp only [Nat.add_zero] at hfree
      simp [RandomBindGo, hfree, List.range_succ]
  | succ n ih =>
    intro fuel i hlt hbusy hfree
    cases fuel with
    | zero => omega
    | succ f =>
      have h0 : doBind { address := a, port := rand i } = ERR_ADDRESS_IN_USE := by
        simpa using hbusy 0 (Nat.succ_pos n)
      have h4 : i + (n + 1) = i + 1 + n := by omega
      have hrec := ih f (i + 1) (by omega)
        (fun k hk => by
          have h2 := hbusy (k + 1) (by omega)
          have h3 : i + (k + 1) = i + 1 + k := by omega
          rwa [h3] at h2)
        (by rwa [h4] at hfree)
      have hfun : ((fun k => rand (i + k)) ∘ Nat.succ) = fun k : Nat => rand (i + 1 + k) := by
        funext k
        show rand (i + (k + 1)) = rand (i + 1 + k)
        congr 1
        omega
      rw [List.range_succ_eq_map, List.map_cons, List.map_map, hfun, h4]
      simp [RandomBindGo, h0, hrec]

/-- Helper: every port the retry loop attempts is either the final
fallback port 0 or a value of the random stream, hence within
`[kPortStart, kPortEnd]` whenever the stream respects that range. -/
theorem randomBindGo_ports (doBind : IPEndPoint → Int) (rand : Nat → Nat) (a : IPAddress)
    (hr : ∀ n, kPortStart ≤ rand n ∧ rand n ≤ kPortEnd) :
    ∀ fuel i p, p ∈ (RandomBindGo doBind rand a i fuel).2 →
      p = 0 ∨ (kPortStart ≤ p ∧ p ≤ kPortEnd) := by
  intro fuel
  induction fuel with
  | zero =>
    intro i p hp
    simp [RandomBindGo] at hp
    left
    exact hp
  | succ f ih =>
    intro i p hp
    simp only [RandomBindGo] at hp
    by_cases h : doBind { address := a, port := rand i } = ERR_ADDRESS_IN_USE
    · rw [if_pos h] at hp
      simp only [List.mem_cons] at hp
      rcases hp with rfl | hp
      · right; exact hr i
      · exact ih (i + 1) p hp
    · rw [if_neg h] at hp
      simp only [List.mem_singleton] at hp
      subst hp
      right; exact hr i

/-- C1: under the random bind policy the engine attempts random ports
(each drawn from `[kPortStart, kPortEnd]` by the random source) up to
`kBindRetries` = 10 times, retrying exactly on address-in-use and
terminating immediately with any other result; only after 10 consecutive
address-in-use failures does it fall back to binding port 0; and the
whole procedure runs from `Connect` (via `InternalConnect`) before the
OS connect call, whose failure is propagated without connecting. -/
theorem C1_random_bind_retry (doBind : IPEndPoint → Int) (rand : Nat → Nat)
    (a : IPAddress) (s : UDPSocketPosix) (os : ConnectOS) (address : IPEndPoint)
    (hr : ∀ n, kPortStart ≤ rand n ∧ rand n ≤ kPortEnd) :
    ((∀ i, i < kBindRetries → doBind { address := a, port := rand i } = ERR_ADDRESS_IN_USE) →
      RandomBind doBind rand a =
        (doBind { address := a, port := 0 }, (List.range kBindRetries).map rand ++ [0]))
  ∧ (∀ j, j < kBindRetries →
      (∀ i, i < j → doBind { address := a, port := rand i } = ERR_ADDRESS_IN_USE) →
      doBind { address := a, port := rand j } ≠ ERR_ADDRESS_IN_USE →
      RandomBind doBind rand a =
        (doBind { address := a, port := rand j }, (List.range (j + 1)).map rand))
  ∧ (∀ p ∈ (RandomBind doBind rand a).2, p = 0 ∨ (kPortStart ≤ p ∧ p ≤ kPortEnd))
  ∧ (s.bind_type_ = BindType.RANDOM_BIND →
      (RandomBind os.doBind os.rand (IPAddress.AllZeros
        (if address.GetSockAddrFamily = AF_INET
          then kIPv4AddressSize else kIPv6AddressSize))).1 < 0 →
      s.InternalConnect os address =
        ((RandomBind os.doBind os.rand (IPAddress.AllZeros
          (if address.GetSockAddrFamily = AF_INET
            then kIPv4AddressSize else kIPv6AddressSize))).1, s)) := by
  have hfun0 : (fun k : Nat => rand (0 + k)) = rand := by
    funext k
    rw [Nat.zero_add]
  refine ⟨?_, ?_, ?_, ?_⟩
  · intro h
    have := randomBindGo_all_in_use doBind rand a kBindRetries 0
      (fun k hk => by simpa using h k hk)
    rw [RandomBind, this, hfun0]
  · intro j hj hbusy hfree
    have := randomBindGo_first_free doBind rand a j kBindRetries 0 hj
      (fun k hk => by simpa using hbusy k hk) (by simpa using hfree)
    rw [RandomBind, this, hfun0]
    simp
  · intro p hp
    exact randomBindGo_ports doBind rand a hr kBindRetries 0 p hp
  · intro hbt hlt
    simp only [UDPSocketPosix.InternalConnect, hbt, if_true, if_pos hlt]

/-- Witness for `C1_random_bind_retry`: with every port in use, the loop
makes its 10 random attempts and then binds port 0. -/
theorem C1_random_bind_retry_witness :
    RandomBind (fun _ => ERR_ADDRESS_IN_USE) (fun _ => 2000) (IPAddress.AllZeros 4) =
      ((fun _ : IPEndPoint => ERR_ADDRESS_IN_USE)
          { address := IPAddress.AllZeros 4, port := 0 },
        (List.range kBindRetries).map (fun _ => 2000) ++ [0]) :=
  (C1_random_bind_retry (fun _ => ERR_ADDRESS_IN_USE) (fun _ => 2000)
    (IPAddress.AllZeros 4) witnessSocket
    { doBind := fun _ => 0, rand := fun _ => 2000, toSockAddrOk := true,
      connectRet := 0, connectErr := -4, multicastRet := 0 }
    { address := [127, 0, 0, 1], port := 443 }
    (by intro n; refine ⟨?_, ?_⟩ <;> norm_num [kPortStart, kPortEnd])).1 (fun _ _ => rfl)

/-- C7: closing an open socket clears all pending read/write state
(buffers, lengths, stored addresses, callbacks) while invoking no stored
callback, unregisters both watchers, closes the descriptor after the
fingerprint check (a mismatching fingerprint is a fatal integrity
violation), resets the connection/address-family/tag state, releases the
admission token and flushes the activity monitor; closing an
already-closed socket is a no-op. -/
theorem C7_close_behavior (s : UDPSocketPosix) (fd : Nat)
    (hdc : s.dont_close_ = false) :
    (s.socket_ = some fd → s.socket_hash_ = GetSocketFDHash fd →
      ∃ s2 eff, UDPSocketPosix.Close true s = some (s2, eff)
        ∧ s2.read_buf_ = false ∧ s2.read_buf_len_ = 0 ∧ s2.read_callback_ = false
        ∧ s2.recv_from_address_ = false ∧ s2.write_buf_ = false ∧ s2.write_buf_len_ = 0
        ∧ s2.write_callback_ = false ∧ s2.send_to_address_ = false
        ∧ s2.read_watching = false ∧ s2.write_watching = false
        ∧ eff.callbacksInvoked = 0
        ∧ eff.descriptorClosed = true
        ∧ s2.socket_ = none ∧ s2.addr_family_ = 0 ∧ s2.is_connected_ = false ∧ s2.tag_ = 0
        ∧ s2.has_owned_socket_count = false
        ∧ s2.received_activity_monitor_.bytes_ = 0
        ∧ s2.received_activity_monitor_.timer_running = false
        ∧ eff.monitorReported = s.received_activity_monitor_.bytes_)
  ∧ (s.socket_ = some fd → s.socket_hash_ ≠ GetSocketFDHash fd →
      UDPSocketPosix.Close true s = none)
  ∧ (s.socket_ = none → s.has_owned_socket_count = false →
      UDPSocketPosix.Close true s = some (s,
        { callbacksInvoked := 0, descriptorClosed := false, monitorReported := 0 })) := by
  refine ⟨?_, ?_, ?_⟩
  · intro hs hh
    simp only [UDPSocketPosix.Close, hdc, if_false, hs, hh,
      ReceivedActivityMonitor.OnClose, ReceivedActivityMonitor.Update]
    by_cases hb : s.received_activity_monitor_.bytes_ = 0 <;> simp [hb] <;>
      exact ⟨_, _, ⟨rfl, rfl⟩, by simp [hb]⟩
  · intro hs hh
    simp only [UDPSocketPosix.Close, hdc, if_false, hs]
    simp [hh]
  · intro hs htok
    obtain ⟨sock, hash, af, conn, tg, dc, tok, rb, rbl, rc, rfa, wb, wbl,
      wc, sta, rw, ww, ra, la, ttl, bt, opt, mon⟩ := s
    simp only at hs htok hdc
    subst hs
    subst htok
    subst hdc
    simp [UDPSocketPosix.Close]

/-- A concrete open socket with pending operations on both directions,
used by the `Close` witness. -/
def openWitnessSocket : UDPSocketPosix :=
  { witnessSocket with
    socket_ := some 7, socket_hash_ := GetSocketFDHash 7,
    is_connected_ := true, tag_ := 3, has_owned_socket_count := true,
    read_buf_ := true, read_buf_len_ := 42, read_callback_ := true,
    recv_from_address_ := true, write_buf_ := true, write_buf_len_ := 13,
    write_callback_ := true, send_to_address_ := true,
    read_watching := true, write_watching := true,
    received_activity_monitor_ := { bytes_ := 5, increments_ := 1, timer_running := true } }

/-- Witness for `C7_close_behavior` on a concrete open socket with
pending reads and writes. -/
theorem C7_close_behavior_witness :
    ∃ s2 eff, UDPSocketPosix.Close true openWitnessSocket = some (s2, eff)
      ∧ s2.read_buf_ = false ∧ s2.read_buf_len_ = 0 ∧ s2.read_callback_ = false
      ∧ s2.recv_from_address_ = false ∧ s2.write_buf_ = false ∧ s2.write_buf_len_ = 0
      ∧ s2.write_callback_ = false ∧ s2.send_to_address_ = false
      ∧ s2.read_watching = false ∧ s2.write_watching = false
      ∧ eff.callbacksInvoked = 0
      ∧ eff.descriptorClosed = true
      ∧ s2.socket_ = none ∧ s2.addr_family_ = 0 ∧ s2.is_connected_ = false ∧ s2.tag_ = 0
      ∧ s2.has_owned_socket_count = false
      ∧ s2.received_activity_monitor_.bytes_ = 0
      ∧ s2.received_activity_monitor_.timer_running = false
      ∧ eff.monitorReported = openWitnessSocket.received_activity_monitor_.bytes_ :=
  (C7_close_behavior openWitnessSocket 7 rfl).1 rfl rfl

/-- C8: `Open` fails with the resource-exhaustion error whenever the
admission gate is empty, before any descriptor is created and with the
socket state unchanged; and when the descriptor is created but setting
non-blocking mode fails, `Open` closes the partially opened socket and
returns the mapped error. -/
theorem C8_open_admission_and_nonblock (s : UDPSocketPosix) (os : OpenOS) (family : Nat)
    (hsock : s.socket_ = none) (hdc : s.dont_close_ = false) :
    (os.gateAvailable = false →
      s.Open os family = some (ERR_INSUFFICIENT_RESOURCES, s))
  ∧ (os.gateAvailable = true → ∀ fd, os.createdFd = some fd →
      os.setNonBlockingOk = false →
      ∃ s2, s.Open os family = some (os.nonBlockingErr, s2)
        ∧ s2.socket_ = none ∧ s2.has_owned_socket_count = false) := by
  constructor
  · intro hg
    simp [UDPSocketPosix.Open, hg]
  · intro hg fd hfd hnb
    simp only [UDPSocketPosix.Open, hg, hfd, hnb]
    simp [UDPSocketPosix.Close, hdc, ReceivedActivityMonitor.OnClose,
      ReceivedActivityMonitor.Update]

/-- Witness for `C8_open_admission_and_nonblock`: with an empty
admission gate, `Open` fails with `ERR_INSUFFICIENT_RESOURCES` and the
socket state is untouched. -/
theorem C8_open_admission_and_nonblock_witness :
    UDPSocketPosix.Open witnessSocket
      { gateAvailable := false, createdFd := some 7, createErr := -4,
        setNonBlockingOk := true, nonBlockingErr := -4 } AF_INET =
      some (ERR_INSUFFICIENT_RESOURCES, witnessSocket) :=
  (C8_open_admission_and_nonblock witnessSocket
    { gateAvailable := false, createdFd := some 7, createErr := -4,
      setNonBlockingOk := true, nonBlockingErr := -4 } AF_INET rfl rfl).1 rfl
